import Mathlib

/-
Verification of the swcpy SDK client (my_work/sdk/src/my_swcpy/swc_client.py)
against its natural-language specification.

The Python client is embedded shallowly: each method of SWCClient becomes a
pure Lean function of its inputs plus an explicit `Outcome` describing what
the HTTP transport did on the single GET that the method performs.  Python
exceptions become the `PyExc` sum type returned through `Except`.  The
pydantic record types of schemas.py are not part of the sources, so their
parse-and-validate behaviour is modelled from the spec where indicated.
-/

set_option autoImplicit false

namespace SwcClient

/-- A query-parameter value as supplied by an endpoint method: the Python
dict values are ints (skip, limit, league_id) or strings (dates, names).
A Python `None` value is modelled as `Option.none` around this type. -/
inductive Val where
  | vInt (n : Int)
  | vStr (s : String)
  deriving DecidableEq, Repr

/-- How Python str() renders a parameter value on the query string. -/
def serializeVal : Val → String
  | .vInt n => toString n
  | .vStr s => s

/-- The `api_params` dict of call_api: keys to possibly-None values. -/
abbrev Params := List (String × Option Val)

/-- Python exceptions that the client code can raise.
`requestError` is httpx.RequestError (transport failure before a response);
`httpStatusError` is httpx.HTTPStatusError (raised by httpx only when
response.raise_for_status() is called);
`validationError` is pydantic.ValidationError, the SchemaError kind;
`jsonDecodeError` is raised by response.json() on a non-JSON body;
`typeError` is raised when iterating/unpacking an unexpected shape;
`attributeError` is raised by attribute lookup on a missing name. -/
inductive PyExc where
  | requestError (msg : String)
  | httpStatusError (status : Nat) (body : String)
  | validationError (model : String)
  | jsonDecodeError (raw : String)
  | typeError (msg : String)
  | attributeError (name : String)
  deriving DecidableEq, Repr

/-- Parameter sanitization of call_api lines 89-90:
`if api_params:` is Python truthiness (None and the empty dict are falsy,
so they skip the filter), and the filter keeps exactly the entries whose
value `is not None`. -/
def sanitizeParams : Option Params → Option Params
  | none => none
  | some l => if l.isEmpty then some l else some (l.filter fun p => p.2.isSome)

/-- The entries of the (sanitized) params dict handed to httpx as `params=`;
a `none` dict contributes no entries. -/
def sentParams (ps : Option Params) : Params :=
  (sanitizeParams ps).getD []

/-- Serialization of one dict entry onto the wire.  A `none` value reaching
this point would be rendered as the literal string "None" - the failure mode
that the sanitization step exists to prevent. -/
def serializeEntry (p : String × Option Val) : String × String :=
  (p.1, match p.2 with
        | none => "None"
        | some v => serializeVal v)

/-- The serialized query string (as key-value pairs) of a request whose
`params=` dict was `ps`. -/
def wireQuery (ps : Option Params) : List (String × String) :=
  (sentParams ps).map serializeEntry

/-- One HTTP GET as put on the wire: endpoint path and serialized query. -/
structure Request where
  endpoint : String
  query : List (String × String)
  deriving DecidableEq, Repr

/-- The request that call_api sends for the given endpoint and raw params
(lines 89-96): params are sanitized, then serialized by httpx. -/
def callApiRequest (apiEndpoint : String) (apiParams : Option Params) : Request :=
  ⟨apiEndpoint, wireQuery (sanitizeParams apiParams)⟩

/-- JSON values, for response bodies. -/
inductive Json where
  | jNull
  | jBool (b : Bool)
  | jInt (n : Int)
  | jStr (s : String)
  | jArr (xs : List Json)
  | jObj (fields : List (String × Json))

/-- A response body as received: either parses as JSON or does not. -/
inductive JBody where
  | valid (j : Json)
  | invalid (raw : String)

/-- An httpx.Response as far as call_api exposes it: status code and the
already-decoded JSON body (call_api calls response.json() on every response,
so a response it returns always carries decodable JSON). -/
structure Response where
  statusCode : Nat
  json : Json

/-- What the transport did for one attempted GET: failed before producing a
response (DNS, refused connection, timeout), or delivered a response with a
status code and a body. -/
inductive Outcome where
  | transportError (msg : String)
  | received (status : Nat) (body : JBody)

/-- call_api lines 92-105, the single-attempt body (the function that exists
when backoff is disabled).  A transport failure surfaces as
httpx.RequestError, re-raised by the `except httpx.RequestError` clause.
Any delivered response has response.json() evaluated by the debug log f-string
on line 97 (raising on a non-JSON body) and is then RETURNED whatever its
status code: the code never calls response.raise_for_status(), so the
`except httpx.HTTPStatusError` clause on lines 99-101 can never fire. -/
def callApi (apiEndpoint : String) (apiParams : Option Params) (o : Outcome) :
    Except PyExc Response :=
  let _req := callApiRequest apiEndpoint apiParams
  match o with
  | .transportError msg => .error (.requestError msg)
  | .received _ (.invalid raw) => .error (.jsonDecodeError raw)
  | .received s (.valid j) => .ok ⟨s, j⟩

/-- Lookup of a field in a JSON object, first occurrence wins. -/
def jget (fields : List (String × Json)) (k : String) : Option Json :=
  (fields.find? fun p => p.1 = k).map fun p => p.2

/-- Modelled from the spec: schemas.py is not under src/, so the League
record shape comes from the spec data model, "League: league_id (integer,
stable identifier), name, and league metadata". -/
structure League where
  league_id : Int
  league_name : String
  deriving DecidableEq, Repr

/-- Modelled from the spec: pydantic validation as the spec describes it,
"parse this mapping into a typed, validated record, fail if required fields
are missing or mistyped".  Failure is the SchemaError kind
(pydantic.ValidationError). -/
def League.parse (j : Json) : Except PyExc League :=
  match j with
  | .jObj fs =>
    match jget fs "league_id", jget fs "league_name" with
    | some (.jInt i), some (.jStr s) => .ok ⟨i, s⟩
    | _, _ => .error (.validationError "League")
  | _ => .error (.validationError "League")

/-- Modelled from the spec: Team record, "Team: team_id, league_id (foreign
reference), name". -/
structure Team where
  team_id : Int
  league_id : Int
  team_name : String
  deriving DecidableEq, Repr

/-- Modelled from the spec: pydantic validation of a Team mapping. -/
def Team.parse (j : Json) : Except PyExc Team :=
  match j with
  | .jObj fs =>
    match jget fs "team_id", jget fs "league_id", jget fs "team_name" with
    | some (.jInt t), some (.jInt l), some (.jStr s) => .ok ⟨t, l, s⟩
    | _, _, _ => .error (.validationError "Team")
  | _ => .error (.validationError "Team")

/-- Modelled from the spec: Performance record, "per-player per-period
statistic record; no declared identifier beyond composite (player, period)". -/
structure Performance where
  player_id : Int
  week_number : String
  deriving DecidableEq, Repr

/-- Modelled from the spec: pydantic validation of a Performance mapping. -/
def Performance.parse (j : Json) : Except PyExc Performance :=
  match j with
  | .jObj fs =>
    match jget fs "player_id", jget fs "week_number" with
    | some (.jInt p), some (.jStr w) => .ok ⟨p, w⟩
    | _, _ => .error (.validationError "Performance")
  | _ => .error (.validationError "Performance")

/-- The list comprehension `[Model(**item) for item in items]`: validates
each element left to right, raising at the first failure, otherwise
producing one record per element in the same order. -/
def mapValidate {α : Type} (f : Json → Except PyExc α) : List Json → Except PyExc (List α)
  | [] => .ok []
  | x :: xs =>
    match f x with
    | .error e => .error e
    | .ok a =>
      match mapValidate f xs with
      | .error e => .error e
      | .ok as => .ok (a :: as)

/-- Python iteration `for item in response.json()` over the decoded body:
only a JSON array iterates as a sequence of element values here (iterating
a dict would yield keys and `Model(**key)` would raise TypeError). -/
def validateListBody {α : Type} (f : Json → Except PyExc α) : Json → Except PyExc (List α)
  | .jArr xs => mapValidate f xs
  | _ => .error (.typeError "argument after ** must be a mapping")

/-- Endpoint path constants, lines 23-28. -/
def HEALTH_CHECK_ENDPOINT : String := "/"

/-- Endpoint path constant for the leagues listing. -/
def LIST_LEAGUES_ENDPOINT : String := "/v0/leagues/"

/-- Endpoint path constant for the players listing. -/
def LIST_PLAYERS_ENDPOINT : String := "/v0/players/"

/-- Endpoint path constant for the performances listing. -/
def LIST_PERFORMANCES_ENDPOINT : String := "/v0/performances/"

/-- Endpoint path constant for the teams listing. -/
def LIST_TEAMS_ENDPOINT : String := "/v0/teams/"

/-- Endpoint path constant for the counts endpoint. -/
def GET_COUNTS_ENDPOINT : String := "/v0/counts/"

/-- The params dict built by list_leagues (lines 144-149).  In the Python
signature skip and limit are ints with defaults 0 and 100; the two filters
default to None. -/
def leaguesParams (skip limit : Int) (minimumLastChangedDate leagueName : Option String) :
    Params :=
  [("skip", some (.vInt skip)),
   ("limit", some (.vInt limit)),
   ("minimum_last_changed_date", minimumLastChangedDate.map .vStr),
   ("league_name", leagueName.map .vStr)]

/-- The params dict built by list_teams (lines 209-215). -/
def teamsParams (skip limit : Int) (minimumLastChangedDate teamName : Option String)
    (leagueId : Option Int) : Params :=
  [("skip", some (.vInt skip)),
   ("limit", some (.vInt limit)),
   ("minimum_last_changed_date", minimumLastChangedDate.map .vStr),
   ("team_name", teamName.map .vStr),
   ("league_id", leagueId.map .vInt)]

/-- The params dict built by list_performances (lines 260-264). -/
def performancesParams (skip limit : Int) (minimumLastChangedDate : Option String) :
    Params :=
  [("skip", some (.vInt skip)),
   ("limit", some (.vInt limit)),
   ("minimum_last_changed_date", minimumLastChangedDate.map .vStr)]

/-- list_leagues lines 125-152: build params, make one call through
call_api, then validate each element of the JSON array body into a League. -/
def list_leagues (skip limit : Int) (minimumLastChangedDate leagueName : Option String)
    (o : Outcome) : Except PyExc (List League) := do
  let response ← callApi LIST_LEAGUES_ENDPOINT
    (some (leaguesParams skip limit minimumLastChangedDate leagueName)) o
  validateListBody League.parse response.json

/-- list_teams lines 190-218. -/
def list_teams (skip limit : Int) (minimumLastChangedDate teamName : Option String)
    (leagueId : Option Int) (o : Outcome) : Except PyExc (List Team) := do
  let response ← callApi LIST_TEAMS_ENDPOINT
    (some (teamsParams skip limit minimumLastChangedDate teamName leagueId)) o
  validateListBody Team.parse response.json

/-- list_performances lines 243-269. -/
def list_performances (skip limit : Int) (minimumLastChangedDate : Option String)
    (o : Outcome) : Except PyExc (List Performance) := do
  let response ← callApi LIST_PERFORMANCES_ENDPOINT
    (some (performancesParams skip limit minimumLastChangedDate)) o
  validateListBody Performance.parse response.json

/-- The single request each list method issues: each method body contains
exactly one call through call_api (lines 151, 217, 266), so its request
trace is a one-element list. -/
def listLeaguesRequests (skip limit : Int) (minimumLastChangedDate leagueName : Option String) :
    List Request :=
  [callApiRequest LIST_LEAGUES_ENDPOINT
    (some (leaguesParams skip limit minimumLastChangedDate leagueName))]

/-- The request trace of list_teams: one call through call_api. -/
def listTeamsRequests (skip limit : Int) (minimumLastChangedDate teamName : Option String)
    (leagueId : Option Int) : List Request :=
  [callApiRequest LIST_TEAMS_ENDPOINT
    (some (teamsParams skip limit minimumLastChangedDate teamName leagueId))]

/-- The request trace of list_performances: one call through call_api. -/
def listPerformancesRequests (skip limit : Int) (minimumLastChangedDate : Option String) :
    List Request :=
  [callApiRequest LIST_PERFORMANCES_ENDPOINT
    (some (performancesParams skip limit minimumLastChangedDate))]

/-- The exception tuple of the backoff decorator, line 60:
`exception=(httpx.RequestError, httpx.HTTPStatusError)`.  True exactly for
the exception kinds the retry policy intercepts. -/
def retriable : PyExc → Bool
  | .requestError _ => true
  | .httpStatusError _ _ => true
  | _ => false

/-- The SWCConfig object consumed by the constructor (fields read on lines
44-47). -/
structure SWCConfig where
  swc_base_url : String
  swc_backoff : Bool
  swc_backoff_max : Nat
  swc_bulk_file_format : String
  deriving DecidableEq, Repr

/-- The initial BULK_FILE_NAMES dict assigned on lines 49-55, before an
extension is appended. -/
def BULK_FILE_NAMES_init : List (String × String) :=
  [("players", "player_data"),
   ("leagues", "league_data"),
   ("performances", "performance_data"),
   ("teams", "team_data"),
   ("team_players", "team_player_data")]

/-- Python str.lower() as a character-wise map (the format strings compared
here are ASCII, where Char.toLower agrees with Python). -/
def pyLower (s : String) : String :=
  ⟨s.data.map Char.toLower⟩

/-- The extension step of the constructor, lines 65-72: if the configured
bulk file format lowercases to "parquet" every value gets ".parquet"
appended, otherwise every value gets ".csv" appended. -/
def bulkFileNames (bulkFileFormat : String) : List (String × String) :=
  if pyLower bulkFileFormat = "parquet" then
    BULK_FILE_NAMES_init.map fun p => (p.1, p.2 ++ ".parquet")
  else
    BULK_FILE_NAMES_init.map fun p => (p.1, p.2 ++ ".csv")

/-- A value stored in an instance attribute of the client. -/
inductive AttrVal where
  | aStr (s : String)
  | aBool (b : Bool)
  | aNat (n : Nat)
  | aMap (m : List (String × String))
  | aWrappedCallApi
  deriving DecidableEq, Repr

/-- Python attribute lookup on the instance dict: the first binding for the
name, or AttributeError when no binding exists. -/
def attrGet (attrs : List (String × AttrVal)) (name : String) : Except PyExc AttrVal :=
  match attrs.find? fun p => p.1 = name with
  | some p => .ok p.2
  | none => .error (.attributeError name)

/-- SWCClient.__init__ lines 34-73, as the instance-attribute dict it
produces (later bindings shadow earlier ones, and attrGet takes the first).
Lines 44-47 assign swc_base_url, backoff, backoff_max_time and
bulk_file_format from the config; line 49 assigns BULK_FILE_NAMES.
When backoff is enabled, line 61 passes `max_time=self.swc_backoff_max_time`
to backoff.on_exception: that argument expression reads an attribute named
"swc_backoff_max_time", which no assignment ever created (line 46 stored the
value under "backoff_max_time"), so the lookup itself raises before the
wrapped call_api is installed.  Lines 65-72 then rebind BULK_FILE_NAMES with
the extension applied. -/
def clientInit (cfg : SWCConfig) : Except PyExc (List (String × AttrVal)) := do
  let attrs : List (String × AttrVal) :=
    [("swc_base_url", .aStr cfg.swc_base_url),
     ("backoff", .aBool cfg.swc_backoff),
     ("backoff_max_time", .aNat cfg.swc_backoff_max),
     ("bulk_file_format", .aStr cfg.swc_bulk_file_format),
     ("BULK_FILE_NAMES", .aMap BULK_FILE_NAMES_init)]
  let attrs ←
    if cfg.swc_backoff then do
      let _maxTime ← attrGet attrs "swc_backoff_max_time"
      pure (("call_api", AttrVal.aWrappedCallApi) :: attrs)
    else
      pure attrs
  pure (("BULK_FILE_NAMES", .aMap (bulkFileNames cfg.swc_bulk_file_format)) :: attrs)

/-- The bulk-file host base URL, lines 30-32. -/
def BULK_FILE_BASE_URL : String :=
  "https://raw.githubusercontent.com/christinesalim/api_portfolio_project/main/bulk/"

/-- Dict access BULK_FILE_NAMES[key] after construction; every key used by
the bulk methods is present in the dict. -/
def bulkName (bulkFileFormat key : String) : String :=
  (((bulkFileNames bulkFileFormat).find? fun p => p.1 = key).map fun p => p.2).getD ""

/-- The response of the direct httpx.get a bulk method performs: status code
and raw body bytes. -/
structure BulkResponse where
  statusCode : Nat
  content : List Nat
  deriving DecidableEq, Repr

/-- The shared shape of all five bulk methods: compute the file URL, GET it,
and return response.content when the status is 200; any other status falls
off the end of the function, returning None. -/
def bulkDownload (path : String) (resp : BulkResponse) : String × Option (List Nat) :=
  (path, if resp.statusCode = 200 then some resp.content else none)

/-- get_bulk_player_file lines 275-286, given the transport response for the
single GET it performs.  Returns the URL requested and the optional bytes. -/
def get_bulk_player_file (bulkFileFormat : String) (resp : BulkResponse) :
    String × Option (List Nat) :=
  bulkDownload (BULK_FILE_BASE_URL ++ bulkName bulkFileFormat "players") resp

/-- get_bulk_league_file lines 288-299. -/
def get_bulk_league_file (bulkFileFormat : String) (resp : BulkResponse) :
    String × Option (List Nat) :=
  bulkDownload (BULK_FILE_BASE_URL ++ bulkName bulkFileFormat "leagues") resp

/-- get_bulk_performance_file lines 301-314. -/
def get_bulk_performance_file (bulkFileFormat : String) (resp : BulkResponse) :
    String × Option (List Nat) :=
  bulkDownload (BULK_FILE_BASE_URL ++ bulkName bulkFileFormat "performances") resp

/-- get_bulk_team_file lines 316-327. -/
def get_bulk_team_file (bulkFileFormat : String) (resp : BulkResponse) :
    String × Option (List Nat) :=
  bulkDownload (BULK_FILE_BASE_URL ++ bulkName bulkFileFormat "teams") resp

/-- get_bulk_team_player_file lines 329-342. -/
def get_bulk_team_player_file (bulkFileFormat : String) (resp : BulkResponse) :
    String × Option (List Nat) :=
  bulkDownload (BULK_FILE_BASE_URL ++ bulkName bulkFileFormat "team_players") resp

/-- C1: the claim says that with backoff enabled every failing call through
call_api is retried with exponential backoff bounded by backoff_max.  The
code cannot deliver this: with swc_backoff = True the constructor itself
raises AttributeError, because line 61 reads self.swc_backoff_max_time while
line 46 stored the configured maximum under self.backoff_max_time.  This
theorem evaluates the constructor at the failing configuration. -/
theorem c1_backoff_enabled_constructor_raises_attribute_error :
    clientInit ⟨"http://0.0.0.0:8000", true, 30, "csv"⟩ =
      .error (.attributeError "swc_backoff_max_time") := by
  rfl

/-- C2: the claim says a non-2xx response makes call_api raise
httpx.HTTPStatusError.  The code never calls response.raise_for_status(), so
a 404 response is returned as if successful; this theorem evaluates call_api
at such a response. -/
theorem c2_non_2xx_response_returned_as_success :
    callApi LIST_LEAGUES_ENDPOINT none
      (.received 404 (.valid (.jObj [("detail", .jStr "Not Found")]))) =
      .ok ⟨404, .jObj [("detail", .jStr "Not Found")]⟩ := by
  rfl

/-- C3: every entry of the params dict that call_api hands to httpx has a
value that is not None: the sanitization on lines 89-90 drops None-valued
entries, and an absent or empty dict contributes no entries at all. -/
theorem c3_sent_params_never_none (ps : Option Params) (kv : String × Option Val)
    (h : kv ∈ sentParams ps) : kv.2 ≠ none := by
  cases ps with
  | none => simp [sentParams, sanitizeParams] at h
  | some l =>
    cases l with
    | nil => simp [sentParams, sanitizeParams] at h
    | cons p rest =>
      simp only [sentParams, sanitizeParams, List.isEmpty_cons, Option.getD_some,
        if_neg Bool.false_ne_true] at h
      have := (List.mem_filter.mp h).2
      exact Option.isSome_iff_ne_none.mp this

/-- Witness for C3 at a concrete params dict containing a None entry. -/
theorem c3_sent_params_never_none_witness :
    (("skip", some (Val.vInt 0)) ∈
      sentParams (some [("skip", some (Val.vInt 0)), ("league_name", (none : Option Val))])) ∧
    (("skip", some (Val.vInt 0)) : String × Option Val).2 ≠ none :=
  ⟨by decide,
   c3_sent_params_never_none
     (some [("skip", some (Val.vInt 0)), ("league_name", none)])
     ("skip", some (Val.vInt 0)) (by decide)⟩

/-- C4: with backoff disabled, call_api is the bare single-attempt function
(the decorator on lines 57-63 is never applied), so a transport failure is
re-raised to the caller at once after the one attempt.  The claim also says
an HTTP error status propagates, but a 500 response is returned as a
success - the same missing raise_for_status slip as C2.  The third conjunct
shows the constructor with backoff disabled succeeds and installs no wrapped
call_api in the instance dict, so no retrying wrapper exists at all. -/
theorem c4_backoff_disabled_single_attempt :
    callApi HEALTH_CHECK_ENDPOINT none (.transportError "connection refused") =
      .error (.requestError "connection refused") ∧
    callApi HEALTH_CHECK_ENDPOINT none (.received 500 (.valid .jNull)) =
      .ok ⟨500, .jNull⟩ ∧
    (clientInit ⟨"http://0.0.0.0:8000", false, 30, "csv"⟩).map
      (fun attrs => (attrs.find? fun p => p.1 = "call_api").isSome) = .ok false := by
  exact ⟨rfl, rfl, rfl⟩

/-- C9: the sanitization keeps every entry whose value is not exactly None,
including falsy values such as the int 0 and the empty string, and drops
exactly the None-valued entries. -/
theorem c9_only_exact_none_dropped (l : Params) (kv : String × Option Val)
    (h : kv ∈ l) : kv ∈ sentParams (some l) ↔ kv.2 ≠ none := by
  cases l with
  | nil => simp at h
  | cons p rest =>
    simp only [sentParams, sanitizeParams, List.isEmpty_cons, Option.getD_some,
      if_neg Bool.false_ne_true]
    rw [List.mem_filter]
    simp [h, Option.isSome_iff_ne_none]

/-- Witness for C9: skip=0 (falsy but not None) is kept, a None-valued
league_id is dropped. -/
theorem c9_only_exact_none_dropped_witness :
    (("skip", some (Val.vInt 0)) ∈
      sentParams (some [("skip", some (Val.vInt 0)), ("team_name", some (Val.vStr "")),
        ("league_id", (none : Option Val))])) ∧
    ¬ (("league_id", (none : Option Val)) ∈
      sentParams (some [("skip", some (Val.vInt 0)), ("team_name", some (Val.vStr "")),
        ("league_id", (none : Option Val))])) :=
  ⟨(c9_only_exact_none_dropped _ ("skip", some (Val.vInt 0)) (by decide)).mpr (by decide),
   fun hmem =>
     (c9_only_exact_none_dropped _ ("league_id", none) (by decide)).mp hmem rfl⟩

/-- C6: every bulk method returns the raw body bytes on status 200 and
returns None on every other status instead of raising. -/
theorem c6_bulk_methods_content_on_200_none_otherwise (fmt : String) (resp : BulkResponse) :
    (resp.statusCode = 200 →
      (get_bulk_player_file fmt resp).2 = some resp.content ∧
      (get_bulk_league_file fmt resp).2 = some resp.content ∧
      (get_bulk_performance_file fmt resp).2 = some resp.content ∧
      (get_bulk_team_file fmt resp).2 = some resp.content ∧
      (get_bulk_team_player_file fmt resp).2 = some resp.content) ∧
    (resp.statusCode ≠ 200 →
      (get_bulk_player_file fmt resp).2 = none ∧
      (get_bulk_league_file fmt resp).2 = none ∧
      (get_bulk_performance_file fmt resp).2 = none ∧
      (get_bulk_team_file fmt resp).2 = none ∧
      (get_bulk_team_player_file fmt resp).2 = none) := by
  constructor <;> intro h <;>
    simp [get_bulk_player_file, get_bulk_league_file, get_bulk_performance_file,
      get_bulk_team_file, get_bulk_team_player_file, bulkDownload, h]

/-- Witness for C6 at a 200 response and at a 404 response. -/
theorem c6_bulk_methods_witness :
    (get_bulk_player_file "csv" ⟨200, [55, 56]⟩).2 = some [55, 56] ∧
    (get_bulk_player_file "csv" ⟨404, []⟩).2 = none :=
  ⟨((c6_bulk_methods_content_on_200_none_otherwise "csv" ⟨200, [55, 56]⟩).1 rfl).1,
   ((c6_bulk_methods_content_on_200_none_otherwise "csv" ⟨404, []⟩).2 (by decide)).1⟩

/-- C10: the bulk-file extension choice lowercases the configured format;
whenever the lowercase form is "parquet" all five resources map to a
".parquet" file name, and for every other value (including invalid formats)
all five map to a ".csv" file name. -/
theorem c10_bulk_extension_by_lowercased_format (fmt : String) :
    (pyLower fmt = "parquet" →
      bulkFileNames fmt =
        [("players", "player_data.parquet"),
         ("leagues", "league_data.parquet"),
         ("performances", "performance_data.parquet"),
         ("teams", "team_data.parquet"),
         ("team_players", "team_player_data.parquet")]) ∧
    (pyLower fmt ≠ "parquet" →
      bulkFileNames fmt =
        [("players", "player_data.csv"),
         ("leagues", "league_data.csv"),
         ("performances", "performance_data.csv"),
         ("teams", "team_data.csv"),
         ("team_players", "team_player_data.csv")]) := by
  constructor <;> intro h <;> simp [bulkFileNames, h, BULK_FILE_NAMES_init]

/-- Witness for C10: an upper-case "PARQUET" still selects the parquet
extension, and the invalid format "json" silently selects csv. -/
theorem c10_bulk_extension_witness :
    bulkFileNames "PARQUET" =
      [("players", "player_data.parquet"),
       ("leagues", "league_data.parquet"),
       ("performances", "performance_data.parquet"),
       ("teams", "team_data.parquet"),
       ("team_players", "team_player_data.parquet")] ∧
    bulkFileNames "json" =
      [("players", "player_data.csv"),
       ("leagues", "league_data.csv"),
       ("performances", "performance_data.csv"),
       ("teams", "team_data.csv"),
       ("team_players", "team_player_data.csv")] :=
  ⟨(c10_bulk_extension_by_lowercased_format "PARQUET").1 (by decide),
   (c10_bulk_extension_by_lowercased_format "json").2 (by decide)⟩

/-- Every League.parse failure carries the SchemaError kind. -/
theorem league_parse_error_is_validation (j : Json) (e : PyExc)
    (h : League.parse j = .error e) : e = .validationError "League" := by
  cases j <;> simp only [League.parse] at h <;>
    first
    | (exact (Except.error.inj h).symm)
    | (split at h <;> simp_all)

/-- Every Team.parse failure carries the SchemaError kind. -/
theorem team_parse_error_is_validation (j : Json) (e : PyExc)
    (h : Team.parse j = .error e) : e = .validationError "Team" := by
  cases j <;> simp only [Team.parse] at h <;>
    first
    | (exact (Except.error.inj h).symm)
    | (split at h <;> simp_all)

/-- Every Performance.parse failure carries the SchemaError kind. -/
theorem performance_parse_error_is_validation (j : Json) (e : PyExc)
    (h : Performance.parse j = .error e) : e = .validationError "Performance" := by
  cases j <;> simp only [Performance.parse] at h <;>
    first
    | (exact (Except.error.inj h).symm)
    | (split at h <;> simp_all)

/-- C7: a validation failure raises the SchemaError kind
(pydantic.ValidationError), which is outside the retry exception tuple of
line 60: that tuple makes exactly the RequestError and HTTPStatusError kinds
retriable, so a SchemaError is never retried even when backoff is enabled. -/
theorem c7_schema_error_distinct_and_never_retried :
    (∀ j e, League.parse j = .error e → retriable e = false) ∧
    (∀ j e, Team.parse j = .error e → retriable e = false) ∧
    (∀ j e, Performance.parse j = .error e → retriable e = false) ∧
    (∀ s, retriable (.validationError s) = false) ∧
    (∀ e, retriable e = true ↔
      ((∃ m, e = .requestError m) ∨ ∃ st b, e = .httpStatusError st b)) := by
  refine ⟨?_, ?_, ?_, ?_, ?_⟩
  · intro j e h
    rw [league_parse_error_is_validation j e h]
    rfl
  · intro j e h
    rw [team_parse_error_is_validation j e h]
    rfl
  · intro j e h
    rw [performance_parse_error_is_validation j e h]
    rfl
  · intro s
    rfl
  · intro e
    cases e <;> simp [retriable]

/-- Witness for C7 at a concrete failing body (JSON null is not a valid
mapping for any of the three record types). -/
theorem c7_schema_error_witness :
    retriable (PyExc.validationError "League") = false ∧
    retriable (PyExc.validationError "Team") = false ∧
    retriable (PyExc.validationError "Performance") = false :=
  ⟨c7_schema_error_distinct_and_never_retried.1 Json.jNull _ rfl,
   c7_schema_error_distinct_and_never_retried.2.1 Json.jNull _ rfl,
   c7_schema_error_distinct_and_never_retried.2.2.1 Json.jNull _ rfl⟩

/-- When the element-wise validation of a list succeeds, it produces exactly
one record per element, and the record at each position is the validation of
the element at that same position (so the order is the input order). -/
theorem mapValidate_spec {α : Type} (f : Json → Except PyExc α) :
    ∀ (xs : List Json) (ys : List α), mapValidate f xs = Except.ok ys →
      ys.length = xs.length ∧
      ∀ (i : Nat) (a : Json) (b : α),
        xs.get? i = some a → ys.get? i = some b → f a = Except.ok b := by
  intro xs
  induction xs with
  | nil =>
    intro ys h
    simp only [mapValidate] at h
    cases h
    exact ⟨rfl, by intro i a b ha _; simp at ha⟩
  | cons x xs ih =>
    intro ys h
    simp only [mapValidate] at h
    cases hfx : f x with
    | error e => rw [hfx] at h; exact Except.noConfusion h
    | ok a =>
      rw [hfx] at h
      cases hrec : mapValidate f xs with
      | error e => rw [hrec] at h; exact Except.noConfusion h
      | ok as =>
        rw [hrec] at h
        cases h
        obtain ⟨hlen, helt⟩ := ih as hrec
        refine ⟨by simp [hlen], ?_⟩
        intro i a0 b ha hb
        cases i with
        | zero =>
          simp only [List.get?] at ha hb
          cases ha
          cases hb
          exact hfx
        | succ n =>
          simp only [List.get?] at ha hb
          exact helt n a0 b ha hb

/-- C5: for each of the three list methods, a successful call against a JSON
array body yields exactly one validated record per array element, and the
record at position i is the independent validation of the array element at
position i - the server's order is preserved, nothing is re-sorted. -/
theorem c5_list_methods_elementwise_ordered
    (skip limit : Int) (mld name : Option String) (leagueId : Option Int)
    (status : Nat) (xs : List Json) :
    (∀ ls, list_leagues skip limit mld name (.received status (.valid (.jArr xs))) =
        Except.ok ls →
      ls.length = xs.length ∧
      ∀ i a b, xs.get? i = some a → ls.get? i = some b → League.parse a = Except.ok b) ∧
    (∀ ts, list_teams skip limit mld name leagueId (.received status (.valid (.jArr xs))) =
        Except.ok ts →
      ts.length = xs.length ∧
      ∀ i a b, xs.get? i = some a → ts.get? i = some b → Team.parse a = Except.ok b) ∧
    (∀ pfs, list_performances skip limit mld (.received status (.valid (.jArr xs))) =
        Except.ok pfs →
      pfs.length = xs.length ∧
      ∀ i a b, xs.get? i = some a → pfs.get? i = some b → Performance.parse a = Except.ok b) := by
  refine ⟨?_, ?_, ?_⟩
  · intro ls h
    simp only [list_leagues, callApi, validateListBody, bind, Except.bind] at h
    exact mapValidate_spec League.parse xs ls h
  · intro ts h
    simp only [list_teams, callApi, validateListBody, bind, Except.bind] at h
    exact mapValidate_spec Team.parse xs ts h
  · intro pfs h
    simp only [list_performances, callApi, validateListBody, bind, Except.bind] at h
    exact mapValidate_spec Performance.parse xs pfs h

/-- Witness for C5: a two-element leagues body validates to two League
records in server order. -/
theorem c5_list_methods_witness :
    ([(⟨5001, "AL"⟩ : League), ⟨5002, "NL"⟩] : List League).length =
      ([Json.jObj [("league_id", Json.jInt 5001), ("league_name", Json.jStr "AL")],
        Json.jObj [("league_id", Json.jInt 5002), ("league_name", Json.jStr "NL")]] :
        List Json).length :=
  ((c5_list_methods_elementwise_ordered 0 100 none none none 200
      [Json.jObj [("league_id", Json.jInt 5001), ("league_name", Json.jStr "AL")],
       Json.jObj [("league_id", Json.jInt 5002), ("league_name", Json.jStr "NL")]]).1
    [⟨5001, "AL"⟩, ⟨5002, "NL"⟩] rfl).1

/-- C8: each list method issues exactly one HTTP call; with the declared
Python defaults (skip=0, limit=100) the sent query carries skip=0 and
limit=100; and any caller-supplied skip and limit are serialized onto the
query unmodified. -/
theorem c8_pagination_defaults_and_limit_passthrough
    (skip limit : Int) (mld name : Option String) (leagueId : Option Int) :
    ((listLeaguesRequests skip limit mld name).length = 1 ∧
     (listTeamsRequests skip limit mld name leagueId).length = 1 ∧
     (listPerformancesRequests skip limit mld).length = 1) ∧
    (("skip", "0") ∈ (callApiRequest LIST_LEAGUES_ENDPOINT
        (some (leaguesParams 0 100 none none))).query ∧
     ("limit", "100") ∈ (callApiRequest LIST_LEAGUES_ENDPOINT
        (some (leaguesParams 0 100 none none))).query ∧
     ("skip", "0") ∈ (callApiRequest LIST_TEAMS_ENDPOINT
        (some (teamsParams 0 100 none none none))).query ∧
     ("limit", "100") ∈ (callApiRequest LIST_TEAMS_ENDPOINT
        (some (teamsParams 0 100 none none none))).query ∧
     ("skip", "0") ∈ (callApiRequest LIST_PERFORMANCES_ENDPOINT
        (some (performancesParams 0 100 none))).query ∧
     ("limit", "100") ∈ (callApiRequest LIST_PERFORMANCES_ENDPOINT
        (some (performancesParams 0 100 none))).query) ∧
    (("limit", toString limit) ∈ (callApiRequest LIST_LEAGUES_ENDPOINT
        (some (leaguesParams skip limit mld name))).query ∧
     ("limit", toString limit) ∈ (callApiRequest LIST_TEAMS_ENDPOINT
        (some (teamsParams skip limit mld name leagueId))).query ∧
     ("limit", toString limit) ∈ (callApiRequest LIST_PERFORMANCES_ENDPOINT
        (some (performancesParams skip limit mld))).query ∧
     ("skip", toString skip) ∈ (callApiRequest LIST_LEAGUES_ENDPOINT
        (some (leaguesParams skip limit mld name))).query) := by
  refine ⟨⟨rfl, rfl, rfl⟩, by decide, ?_⟩
  refine ⟨?_, ?_, ?_, ?_⟩ <;>
    cases mld <;> cases name <;> cases leagueId <;>
      simp [callApiRequest, wireQuery, sentParams, sanitizeParams, leaguesParams,
        teamsParams, performancesParams, serializeEntry, serializeVal, List.filter]

end SwcClient
